import Mathlib

/-!
Verification development for the infrasonar ping-probe repository.

The embedding follows the source files:
  - src/lib/icmp.py      (reply classification and the echo session loop)
  - src/lib/check/ping.py (the check adapter)

Python floats that only ever carry millisecond/second readings are modelled
as rationals; Python lists as Lean lists; the mutable catch_messages list is
threaded explicitly.  Exceptions are modelled as Except / Option values.
-/



namespace PingProbe



/-- Embeds the dict _MESSAGES_V6 of src/lib/icmp.py: ICMPv6 type to label.
dict.get with a missing key yields the default, so the embedding is
Option-valued. -/
def MESSAGES_V6 (ty : Nat) : Option String :=
  match ty with
  | 0 => some ("Reserved")
  | 1 => some ("Destination Unreachable")
  | 2 => some ("Packet Too Big")
  | 3 => some ("Time Exceeded")
  | 4 => some ("Parameter Problem")
  | 128 => some ("Echo Request")
  | 129 => some ("Echo Reply")
  | 130 => some ("Multicast Listener Query")
  | 131 => some ("Multicast Listener Report")
  | 132 => some ("Multicast Listener Done")
  | 133 => some ("Router Solicitation")
  | 134 => some ("Router Advertisement")
  | 135 => some ("Neighbor Solicitation")
  | 136 => some ("Neighbor Advertisement")
  | 137 => some ("Redirect Message")
  | 138 => some ("Router Renumbering")
  | 139 => some ("ICMP Node Information Query")
  | 140 => some ("ICMP Node Information Response")
  | 141 => some ("Inverse Neighbor Discovery")
  | 142 => some ("Inverse Neighbor Discovery")
  | 144 => some ("Home Agent Address Discovery")
  | 145 => some ("Home Agent Address Discovery")
  | 146 => some ("Mobile Prefix Solicitation")
  | 147 => some ("Mobile Prefix Advertisement")
  | 157 => some ("Duplicate Address Request Code Suffix")
  | 158 => some ("Duplicate Address Confirmation Code Suffix")
  | 160 => some ("Extended Echo Request")
  | 161 => some ("Extended Echo Reply")
  | _ => none

/-- Embeds the dict _MESSAGES_V4 of src/lib/icmp.py: ICMPv4 type to label. -/
def MESSAGES_V4 (ty : Nat) : Option String :=
  match ty with
  | 0 => some ("Echo Reply")
  | 1 => some ("Unassigned")
  | 2 => some ("Unassigned")
  | 3 => some ("Destination Unreachable")
  | 4 => some ("Source Quench (Deprecated)")
  | 5 => some ("Redirect")
  | 6 => some ("Alternate Host Address (Deprecated)")
  | 7 => some ("Unassigned")
  | 8 => some ("Echo")
  | 9 => some ("Router Advertisement")
  | 10 => some ("Router Selection")
  | 11 => some ("Time Exceeded")
  | 12 => some ("Parameter Problem")
  | 13 => some ("Timestamp")
  | 14 => some ("Timestamp Reply")
  | 15 => some ("Information Request (Deprecated)")
  | 16 => some ("Information Reply (Deprecated)")
  | 17 => some ("Address Mask Request (Deprecated)")
  | 18 => some ("Address Mask Reply (Deprecated)")
  | 19 => some ("Reserved (for Security)")
  | 20 => some ("Reserved (for Robustness Experiment)")
  | 21 => some ("Reserved (for Robustness Experiment)")
  | 22 => some ("Reserved (for Robustness Experiment)")
  | 23 => some ("Reserved (for Robustness Experiment)")
  | 24 => some ("Reserved (for Robustness Experiment)")
  | 25 => some ("Reserved (for Robustness Experiment)")
  | 26 => some ("Reserved (for Robustness Experiment)")
  | 27 => some ("Reserved (for Robustness Experiment)")
  | 28 => some ("Reserved (for Robustness Experiment)")
  | 29 => some ("Reserved (for Robustness Experiment)")
  | 30 => some ("Traceroute (Deprecated)")
  | 31 => some ("Datagram Conversion Error (Deprecated)")
  | 32 => some ("Mobile Host Redirect (Deprecated)")
  | 33 => some ("IPv6 Where-Are-You (Deprecated)")
  | 34 => some ("IPv6 I-Am-Here (Deprecated)")
  | 35 => some ("Mobile Registration Request (Deprecated)")
  | 36 => some ("Mobile Registration Reply (Deprecated)")
  | 37 => some ("Domain Name Request (Deprecated)")
  | 38 => some ("Domain Name Reply (Deprecated)")
  | 39 => some ("SKIP (Deprecated)")
  | 40 => some ("Photuris")
  | 41 => some ("ICMP messages utilized by experimental mobility protocols such as Seamoby")
  | 42 => some ("Extended Echo Request")
  | 43 => some ("Extended Echo Reply")
  | 253 => some ("RFC3692-style Experiment 1")
  | 254 => some ("RFC3692-style Experiment 2")
  | _ => none

/-- The exceptions raise_for_status can raise.  All five classes are
subclasses of ICMPLibError in the icmplib exception hierarchy (the external
transport library), which is why the session loop catches every one of them. -/
inductive IcmpExc where
  | ICMPv6DestinationUnreachable
  | ICMPv6TimeExceeded
  | ICMPv4DestinationUnreachable
  | ICMPv4TimeExceeded
  | ICMPError (message : String)
deriving DecidableEq, Repr

/-- Embeds _raise_for_status of src/lib/icmp.py.  The reply object is
represented by its family, type and code; the mutable catch_messages list
is passed in and the (possibly extended) list is returned together with the
exception raised, if any.  The label append happens first in each family
branch, before any raise, exactly as in the source. -/
def raise_for_status (family ty code : Nat) (catch_messages : List String) :
    List String × Option IcmpExc :=
  let branch : List String × Option IcmpExc :=
    if family = 6 then
      let msgs := catch_messages ++ [(MESSAGES_V6 ty).getD ("Unassigned")]
      if ty = 1 then (msgs, some IcmpExc.ICMPv6DestinationUnreachable)
      else if ty = 3 then (msgs, some IcmpExc.ICMPv6TimeExceeded)
      else (msgs, none)
    else
      let msgs := catch_messages ++ [(MESSAGES_V4 ty).getD ("Unassigned")]
      if ty = 3 then (msgs, some IcmpExc.ICMPv4DestinationUnreachable)
      else if ty = 11 then (msgs, some IcmpExc.ICMPv4TimeExceeded)
      else (msgs, none)
  match branch with
  | (msgs, some e) => (msgs, some e)
  | (msgs, none) =>
    if (family = 4 ∧ ty ≠ 0 ∧ ty ≠ 5) ∨ (family = 6 ∧ ty ≠ 129 ∧ ty ≠ 137) then
      (msgs, some (IcmpExc.ICMPError
        ("Error type: " ++ toString ty ++ ", code: " ++ toString code)))
    else
      (msgs, none)

/-- The semantic outcome of classifying one reply (the vocabulary of the
specification, section 4.1). -/
inductive Outcome where
  | success
  | informational
  | unreachable
  | timeExceeded
  | protocolError
deriving DecidableEq, Repr

/-- The Reply Classifier of the specification, read off raise_for_status:
a DestinationUnreachable raise is the Unreachable outcome, a TimeExceeded
raise the TimeExceeded outcome, an ICMPError raise the ProtocolError
outcome; no raise means the reply counts as alive, split into Success for
an echo reply (type 0 or 129, per the comment in the source) and
Informational for a redirect. -/
def classify (family ty code : Nat) : Outcome :=
  match (raise_for_status family ty code []).2 with
  | some IcmpExc.ICMPv6DestinationUnreachable => Outcome.unreachable
  | some IcmpExc.ICMPv4DestinationUnreachable => Outcome.unreachable
  | some IcmpExc.ICMPv6TimeExceeded => Outcome.timeExceeded
  | some IcmpExc.ICMPv4TimeExceeded => Outcome.timeExceeded
  | some (IcmpExc.ICMPError _) => Outcome.protocolError
  | none =>
    if family = 6 then
      if ty = 129 then Outcome.success else Outcome.informational
    else
      if ty = 0 then Outcome.success else Outcome.informational

/-! ## The echo session loop (async_ping2 of src/lib/icmp.py)

The transport (icmplib sockets) is an external collaborator; it is modelled
as an environment that says, for every sequence number, what sock.send and
sock.receive do.  An exception raised by the transport carries a flag
telling whether it is an instance of ICMPLibError, because the loop body
catches exactly ICMPLibError: in the icmplib hierarchy the socket errors
(SocketPermissionError, SocketAddressError, SocketUnavailableError) and
TimeoutExceeded are all subclasses of ICMPLibError, while a fault at socket
creation happens outside the try block and always propagates. -/

/-- One reply delivered by sock.receive: address family, ICMP type and code,
and the round-trip time in milliseconds, which the source computes as
(reply.time - request.time) * 1000. -/
structure Reply where
  family : Nat
  ty : Nat
  code : Nat
  rtt : Rat
deriving DecidableEq, Repr

/-- What sock.send does for a given sequence number. -/
inductive SendOutcome where
  | ok
  | fault (isLibError : Bool)
deriving DecidableEq, Repr

/-- What sock.receive does for a given sequence number.  A per-packet
timeout is fault true: icmplib raises TimeoutExceeded, a subclass of
ICMPLibError. -/
inductive RecvOutcome where
  | reply (r : Reply)
  | fault (isLibError : Bool)
deriving DecidableEq, Repr

/-- The transport environment of one session. -/
structure PingEnv where
  socketFault : Bool
  send : Nat → SendOutcome
  recv : Nat → RecvOutcome

/-- A fault that escapes async_ping2 (transport-level, because everything
classified ICMPLibError is caught inside the loop). -/
inductive Fault where
  | socketCreation
  | sendFault (seq : Nat)
  | recvFault (seq : Nat)
deriving DecidableEq, Repr

/-- Observable suspension / transport actions of one session, recorded so
that the placement of the inter-packet wait can be stated. -/
inductive Action where
  | sleep (interval : Rat)
  | send (seq : Nat)
  | sendErr (seq : Nat)
  | recvReply (seq : Nat)
  | recvErr (seq : Nat)
deriving DecidableEq, Repr

/-- The mutable loop state of async_ping2: packets_sent, rtts, the caller's
catch_messages list, plus the recorded action trace. -/
structure PingState where
  packets_sent : Nat
  rtts : List Rat
  messages : List String
  trace : List Action
deriving DecidableEq, Repr

/-- The body of the for-loop of async_ping2 for one sequence number:
sleep when sequence > 0, send, count the send, receive, run
raise_for_status, append the rtt; the except ICMPLibError clause turns a
library-classified exception into a normal continuation, anything else
propagates. -/
def pingAttempt (env : PingEnv) (interval : Rat) (seq : Nat) (st : PingState) :
    Except Fault PingState :=
  let st1 := if 0 < seq then { st with trace := st.trace ++ [Action.sleep interval] } else st
  match env.send seq with
  | SendOutcome.fault isLibError =>
    if isLibError then
      Except.ok { st1 with trace := st1.trace ++ [Action.sendErr seq] }
    else
      Except.error (Fault.sendFault seq)
  | SendOutcome.ok =>
    let st2 := { st1 with
      packets_sent := st1.packets_sent + 1
      trace := st1.trace ++ [Action.send seq] }
    match env.recv seq with
    | RecvOutcome.fault isLibError =>
      if isLibError then
        Except.ok { st2 with trace := st2.trace ++ [Action.recvErr seq] }
      else
        Except.error (Fault.recvFault seq)
    | RecvOutcome.reply r =>
      let st3 := { st2 with trace := st2.trace ++ [Action.recvReply seq] }
      let pair := raise_for_status r.family r.ty r.code st3.messages
      let st4 := { st3 with messages := pair.1 }
      match pair.2 with
      | some _ => Except.ok st4
      | none => Except.ok { st4 with rtts := st4.rtts ++ [r.rtt] }

/-- The for-loop of async_ping2 over a list of sequence numbers. -/
def pingLoop (env : PingEnv) (interval : Rat) (seqs : List Nat) (st : PingState) :
    Except Fault PingState :=
  match seqs with
  | [] => Except.ok st
  | s :: rest =>
    match pingAttempt env interval s st with
    | Except.error f => Except.error f
    | Except.ok st2 => pingLoop env interval rest st2

/-- The icmplib Host value returned by async_ping2:
Host(address, packets_sent, rtts).  In icmplib, packets_received and
is_alive are derived from the stored rtts list. -/
structure Host where
  address : String
  packets_sent : Nat
  rtts : List Rat
deriving DecidableEq, Repr

/-- Modelled from icmplib (external collaborator): Host.packets_received is
the length of the stored rtts list. -/
def Host.packets_received (h : Host) : Nat := h.rtts.length

/-- Modelled from icmplib (external collaborator): Host.is_alive holds when
at least one reply was received. -/
def Host.is_alive (h : Host) : Bool := !h.rtts.isEmpty

/-- Modelled from icmplib (external collaborator): Host.min_rtt is the
minimum of the stored rtts, 0 for an empty list.  icmplib also rounds to
three decimals; the rounding of the external library is not modelled. -/
def Host.min_rtt (h : Host) : Rat :=
  match h.rtts with
  | [] => 0
  | x :: xs => xs.foldl min x

/-- Modelled from icmplib (external collaborator): Host.max_rtt, analogous
to Host.min_rtt. -/
def Host.max_rtt (h : Host) : Rat :=
  match h.rtts with
  | [] => 0
  | x :: xs => xs.foldl max x

/-- The result of a completed session: the Host plus the final state of the
caller's catch_messages list and the recorded trace. -/
structure PingResult where
  host : Host
  messages : List String
  trace : List Action
deriving DecidableEq, Repr

/-- Embeds async_ping2 of src/lib/icmp.py for an address that is already an
IP address (hostname resolution is an external collaborator and out of
scope).  Socket creation happens before the loop; a fault there always
propagates. -/
def async_ping2 (env : PingEnv) (catch_messages : List String) (address : String)
    (count : Nat) (interval : Rat) : Except Fault PingResult :=
  if env.socketFault then
    Except.error Fault.socketCreation
  else
    match pingLoop env interval (List.range count)
        { packets_sent := 0, rtts := [], messages := catch_messages, trace := [] } with
    | Except.error f => Except.error f
    | Except.ok st =>
      Except.ok
        { host := { address := address, packets_sent := st.packets_sent, rtts := st.rtts }
          messages := st.messages
          trace := st.trace }

/-! ## The check adapter (src/lib/check/ping.py) -/

/-- The ad hoc Itm class of CheckPing.run: the attributes of an icmplib
Host that get_item reads. -/
structure Itm where
  max_rtt : Rat
  min_rtt : Rat
  is_alive : Bool
  packets_sent : Nat
  packets_received : Nat
deriving DecidableEq, Repr

/-- The Host attributes seen as an Itm, using the derived icmplib
properties. -/
def itmOfHost (h : Host) : Itm :=
  { max_rtt := h.max_rtt
    min_rtt := h.min_rtt
    is_alive := h.is_alive
    packets_sent := h.packets_sent
    packets_received := h.packets_received }

/-- One entry of the icmp list in the report returned by CheckPing.run. -/
structure PingItem where
  name : String
  address : String
  count : Nat
  dropped : Int
  maxTime : Option Rat
  minTime : Option Rat
  messages : List String
deriving DecidableEq, Repr

/-- The report dict: state = \x7b'icmp': [item]\x7d. -/
structure PingReport where
  icmp : List PingItem
deriving DecidableEq, Repr

/-- Embeds get_item of src/lib/check/ping.py: min/max times are set only
when itm.is_alive, converted from milliseconds to seconds. -/
def get_item (itm : Itm) (name address : String) (count : Nat)
    (messages : List String) : PingItem :=
  let times : Option Rat × Option Rat :=
    if itm.is_alive then (some (itm.max_rtt / 1000), some (itm.min_rtt / 1000))
    else (none, none)
  { name := name
    address := address
    count := count
    dropped := (itm.packets_sent : Int) - (itm.packets_received : Int)
    maxTime := times.1
    minTime := times.2
    messages := messages }

/-- TYPE_NAME of src/lib/check/ping.py. -/
def TYPE_NAME : String := "icmp"

/-- ITEM_NAME of src/lib/check/ping.py. -/
def ITEM_NAME : String := "ping"

/-- Embeds get_state of src/lib/check/ping.py. -/
def get_state (data : Itm) (address : String) (count : Nat)
    (messages : List String) : PingReport :=
  { icmp := [get_item data ITEM_NAME address count messages] }

/-- Modelled from the spec: check_config of src/lib/utils.py is imported by
the adapter but the file is not under src/.  The spec gives count a valid
range of 1 to 9 and interval a valid range of 1 to 9 seconds, failing fast
on out-of-range values before any packet is sent. -/
def check_config (count interval : Nat) : Bool :=
  decide (1 ≤ count ∧ count ≤ 9 ∧ 1 ≤ interval ∧ interval ≤ 9)

/-- The configuration dict of one check invocation, with the keys
CheckPing.run reads.  A missing key is none; the address value also covers
the falsy empty string. -/
structure Config where
  address : Option String
  count : Option Nat
  interval : Option Nat
  timeout : Option Nat
deriving DecidableEq, Repr

/-- The exceptions CheckPing.run can raise: the configuration validation
error, CheckException (transport wrap, only reachable through the
commented-out probe call) and NoCountException carrying the report. -/
inductive CheckError where
  | configError
  | checkException (message : String)
  | noCountException (message : String) (result : PingReport)
deriving DecidableEq, Repr

/-- Embeds lines 46 to 48 of src/lib/check/ping.py: config.get('address')
with a fallback to the asset name when the value is missing or falsy (for a
string, falsy means empty). -/
def resolveAddress (cfgAddress : Option String) (assetName : String) : String :=
  match cfgAddress with
  | none => assetName
  | some a => if a = "" then assetName else a

/-- The stub Itm built inline in CheckPing.run (lines 60 to 73): fixed
rtt readings and a perfect count/count delivery, whatever the target. -/
def stubItm (count : Nat) : Itm :=
  { max_rtt := 6588.8
    min_rtt := 4124.3
    is_alive := true
    packets_received := count
    packets_sent := count }

/-- Embeds the tail of CheckPing.run (lines 87 to 91): build the state and
raise NoCountException when every sent packet was dropped, otherwise return
the state. -/
def finishPing (data : Itm) (address : String) (count : Nat)
    (messages : List String) : Except CheckError PingReport :=
  let result := get_state data address count messages
  if 0 < data.packets_sent ∧ data.packets_received = 0 then
    Except.error (CheckError.noCountException ("all packages dropped") result)
  else
    Except.ok result

/-- Embeds CheckPing.run of src/lib/check/ping.py as written: resolve the
address and the config values, validate, then use the hard-coded stub Itm
and messages.  The transport environment is a parameter because async_ping2
is available to run, but the call to it is commented out in the source, so
the definition never consults env. -/
def runPing (env : PingEnv) (assetName : String) (cfg : Config) :
    Except CheckError PingReport :=
  let address := resolveAddress cfg.address assetName
  let count := cfg.count.getD 5
  let interval := cfg.interval.getD 1
  if check_config count interval then
    let data := stubItm count
    let catch_messages := ["foo", "bar"]
    let _ := env
    let _ := interval
    finishPing data address count catch_messages
  else
    Except.error CheckError.configError

/-! ## Derived observations of the session environment, used to state the
loop properties, and the concrete environments and values of the witness
and counterexample theorems. -/

def labelOf (family ty : Nat) : String :=
  (if family = 6 then MESSAGES_V6 ty else MESSAGES_V4 ty).getD ("Unassigned")

def sendOk (env : PingEnv) (s : Nat) : Bool :=
  match env.send s with
  | SendOutcome.ok => true
  | SendOutcome.fault _ => false

def replyAt (env : PingEnv) (s : Nat) : Option Reply :=
  match env.send s with
  | SendOutcome.fault _ => none
  | SendOutcome.ok =>
    match env.recv s with
    | RecvOutcome.fault _ => none
    | RecvOutcome.reply r => some r

def replyLabels (env : PingEnv) (s : Nat) : List String :=
  match replyAt env s with
  | none => []
  | some r => [labelOf r.family r.ty]

def goodRtt (env : PingEnv) (s : Nat) : List Rat :=
  match replyAt env s with
  | none => []
  | some r =>
    match (raise_for_status r.family r.ty r.code []).2 with
    | some _ => []
    | none => [r.rtt]

def attemptActions (env : PingEnv) (interval : Rat) (s : Nat) : List Action :=
  (if 0 < s then [Action.sleep interval] else []) ++
  (match env.send s with
   | SendOutcome.fault _ => [Action.sendErr s]
   | SendOutcome.ok =>
     Action.send s ::
       (match env.recv s with
        | RecvOutcome.fault _ => [Action.recvErr s]
        | RecvOutcome.reply _ => [Action.recvReply s]))

def fatalAt (env : PingEnv) (s : Nat) : Bool :=
  match env.send s with
  | SendOutcome.fault isLibError => !isLibError
  | SendOutcome.ok =>
    match env.recv s with
    | RecvOutcome.fault isLibError => !isLibError
    | RecvOutcome.reply _ => false

/-- The environment of the C4 and C6 witnesses: both packets are sent, the
first gets an IPv4 echo reply with a 5 ms round trip, the second times out
(TimeoutExceeded is an ICMPLibError, so isLibError is true). -/
def envEcho : PingEnv :=
  { socketFault := false
    send := fun _ => SendOutcome.ok
    recv := fun s =>
      if s = 0 then RecvOutcome.reply { family := 4, ty := 0, code := 0, rtt := 5 }
      else RecvOutcome.fault true }

/-- The environment of the C5 counterexample: sock.send raises a
transport-level socket error for every packet.  In the icmplib hierarchy
the socket errors (SocketUnavailableError, SocketPermissionError,
SocketAddressError) are subclasses of ICMPLibError, so isLibError is
true and the except ICMPLibError clause of the loop catches them. -/
def envSendSocketError : PingEnv :=
  { socketFault := false
    send := fun _ => SendOutcome.fault true
    recv := fun _ => RecvOutcome.fault true }

/-- The environment of the C5 witness: the receive of packet 0 raises a
fault that is not an ICMPLibError. -/
def envRecvForeignError : PingEnv :=
  { socketFault := false
    send := fun _ => SendOutcome.ok
    recv := fun _ => RecvOutcome.fault false }

/-- The transport environment of the C1 theorem: socket creation fails,
so the real probe cannot even start a session against this target. -/
def envDown : PingEnv :=
  { socketFault := true
    send := fun _ => SendOutcome.ok
    recv := fun _ => RecvOutcome.fault true }

def hostW : Host := { address := "1.2.3.4", packets_sent := 3, rtts := [7, 5] }

/-- A total-loss statistics value for the C8 witness. -/
def itmLoss : Itm :=
  { max_rtt := 0, min_rtt := 0, is_alive := false, packets_sent := 1,
    packets_received := 0 }

/-- A valid configuration used by the C9 and C10 witnesses. -/
def cfgW : Config :=
  { address := some (""), count := some 9, interval := some 2, timeout := some 1 }

/-! ## Helper lemmas -/

theorem raise_for_status_fst (family ty code : Nat) (msgs : List String) :
    (raise_for_status family ty code msgs).1 = msgs ++ [labelOf family ty] := by
  unfold raise_for_status labelOf
  by_cases h : family = 6 <;> simp only [h, if_true, if_false, reduceIte] <;>
    split_ifs <;> simp_all

theorem raise_for_status_snd (family ty code : Nat) (msgs : List String) :
    (raise_for_status family ty code msgs).2 = (raise_for_status family ty code []).2 := by
  unfold raise_for_status
  by_cases h : family = 6 <;> simp only [h, if_true, if_false, reduceIte] <;>
    split_ifs <;> simp_all

theorem pingAttempt_ok (env : PingEnv) (interval : Rat) (s : Nat) (st : PingState)
    (h : fatalAt env s = false) :
    pingAttempt env interval s st = Except.ok
      { packets_sent := st.packets_sent + (if sendOk env s then 1 else 0)
        rtts := st.rtts ++ goodRtt env s
        messages := st.messages ++ replyLabels env s
        trace := st.trace ++ attemptActions env interval s } := by
  unfold fatalAt at h
  unfold pingAttempt sendOk goodRtt replyLabels replyAt attemptActions
  by_cases h0 : 0 < s
  all_goals simp only [h0, if_true, if_false, reduceIte]
  all_goals cases hs : env.send s with
  | fault isLibError =>
    cases isLibError
    · simp_all
    · simp_all [List.append_assoc]
  | ok =>
    rw [hs] at h
    cases hr : env.recv s with
    | fault isLibError =>
      cases isLibError
      · simp_all
      · simp_all [List.append_assoc]
    | reply r =>
      simp only []
      rw [raise_for_status_snd r.family r.ty r.code]
      have hfst := raise_for_status_fst r.family r.ty r.code st.messages
      cases hz : (raise_for_status r.family r.ty r.code []).2 with
      | none => simp_all [List.append_assoc]
      | some e => simp_all [List.append_assoc]

theorem pingAttempt_fatal (env : PingEnv) (interval : Rat) (s : Nat) (st : PingState)
    (h : fatalAt env s = true) :
    ∃ f : Fault, pingAttempt env interval s st = Except.error f := by
  unfold fatalAt at h
  unfold pingAttempt
  cases hs : env.send s with
  | fault isLibError =>
    cases isLibError
    · exact ⟨Fault.sendFault s, by simp⟩
    · simp_all
  | ok =>
    rw [hs] at h
    cases hr : env.recv s with
    | fault isLibError =>
      cases isLibError
      · exact ⟨Fault.recvFault s, by simp [hr]⟩
      · simp_all
    | reply r => simp_all

theorem pingLoop_ok (env : PingEnv) (interval : Rat) (seqs : List Nat) (st : PingState)
    (h : ∀ s ∈ seqs, fatalAt env s = false) :
    pingLoop env interval seqs st = Except.ok
      { packets_sent := st.packets_sent + seqs.countP (fun s => sendOk env s)
        rtts := st.rtts ++ seqs.flatMap (goodRtt env)
        messages := st.messages ++ seqs.flatMap (replyLabels env)
        trace := st.trace ++ seqs.flatMap (attemptActions env interval) } := by
  induction seqs generalizing st with
  | nil => simp [pingLoop]
  | cons s rest ih =>
    rw [pingLoop, pingAttempt_ok env interval s st (h s (by simp))]
    dsimp only
    rw [ih _ (fun t ht => h t (List.mem_cons_of_mem _ ht))]
    simp only [Except.ok.injEq, PingState.mk.injEq, List.countP_cons, List.flatMap_cons,
      List.append_assoc, and_true, true_and]
    omega

theorem pingLoop_noFatal (env : PingEnv) (interval : Rat) (seqs : List Nat)
    (st st2 : PingState) (h : pingLoop env interval seqs st = Except.ok st2) :
    ∀ s ∈ seqs, fatalAt env s = false := by
  induction seqs generalizing st with
  | nil => simp
  | cons a rest ih =>
    intro s hmem
    rw [pingLoop] at h
    cases ha : pingAttempt env interval a st with
    | error f => rw [ha] at h; cases h
    | ok stMid =>
      rw [ha] at h
      rcases List.mem_cons.mp hmem with rfl | hmem2
      · by_contra hb
        obtain ⟨f, hf⟩ := pingAttempt_fatal env interval s st (by simpa using hb)
        rw [hf] at ha
        cases ha
      · exact ih stMid h s hmem2

theorem pingLoop_append (env : PingEnv) (interval : Rat) (l1 l2 : List Nat)
    (st : PingState) :
    pingLoop env interval (l1 ++ l2) st =
      match pingLoop env interval l1 st with
      | Except.error f => Except.error f
      | Except.ok st2 => pingLoop env interval l2 st2 := by
  induction l1 generalizing st with
  | nil => simp [pingLoop]
  | cons a rest ih =>
    rw [List.cons_append, pingLoop, pingLoop]
    cases pingAttempt env interval a st with
    | error f => rfl
    | ok stMid => exact ih stMid

theorem async_ping2_ok (env : PingEnv) (cm : List String) (addr : String)
    (count : Nat) (interval : Rat)
    (hsock : env.socketFault = false)
    (h : ∀ s, s < count → fatalAt env s = false) :
    async_ping2 env cm addr count interval = Except.ok
      { host := { address := addr
                  packets_sent := (List.range count).countP (fun s => sendOk env s)
                  rtts := (List.range count).flatMap (goodRtt env) }
        messages := cm ++ (List.range count).flatMap (replyLabels env)
        trace := (List.range count).flatMap (attemptActions env interval) } := by
  have hnf : ∀ s ∈ List.range count, fatalAt env s = false :=
    fun s hs => h s (List.mem_range.mp hs)
  unfold async_ping2
  rw [if_neg (by simp [hsock]), pingLoop_ok env interval _ _ hnf]
  simp

theorem async_ping2_socket_fault (env : PingEnv) (cm : List String) (addr : String)
    (count : Nat) (interval : Rat) (hsock : env.socketFault = true) :
    async_ping2 env cm addr count interval = Except.error Fault.socketCreation := by
  unfold async_ping2
  rw [if_pos (by simp [hsock])]

theorem async_ping2_error_at (env : PingEnv) (cm : List String) (addr : String)
    (count : Nat) (interval : Rat) (s : Nat)
    (hsock : env.socketFault = false) (hlt : s < count) (hf : fatalAt env s = true)
    (hpre : ∀ t, t < s → fatalAt env t = false) :
    ∃ f : Fault, async_ping2 env cm addr count interval = Except.error f := by
  obtain ⟨k, hk⟩ : ∃ k, count - s = k + 1 := ⟨count - s - 1, by omega⟩
  have hdecomp : List.range count = List.range' 0 s ++ (s :: List.range' (s + 1) k) := by
    rw [List.range_eq_range', ← List.range'_succ s k 1]
    have h3 := List.range'_append_1 0 s (k + 1)
    rw [Nat.zero_add] at h3
    rw [h3]
    congr 1
    omega
  have hok := pingLoop_ok env interval (List.range' 0 s)
    { packets_sent := 0, rtts := [], messages := cm, trace := [] }
    (fun t ht => hpre t (by
      have := List.mem_range'_1.mp ht
      omega))
  obtain ⟨f, hferr⟩ := pingAttempt_fatal env interval s
    { packets_sent := 0 + (List.range' 0 s).countP (fun t => sendOk env t)
      rtts := [] ++ (List.range' 0 s).flatMap (goodRtt env)
      messages := cm ++ (List.range' 0 s).flatMap (replyLabels env)
      trace := [] ++ (List.range' 0 s).flatMap (attemptActions env interval) } hf
  refine ⟨f, ?_⟩
  unfold async_ping2
  rw [if_neg (by simp [hsock]), hdecomp, pingLoop_append]
  rw [hok]
  dsimp only
  rw [pingLoop, hferr]

theorem goodRtt_length_le (env : PingEnv) (s : Nat) :
    (goodRtt env s).length ≤ if sendOk env s then 1 else 0 := by
  unfold goodRtt replyAt sendOk
  cases env.send s with
  | fault isLibError => simp
  | ok =>
    cases env.recv s with
    | fault isLibError => simp
    | reply r =>
      cases hz : (raise_for_status r.family r.ty r.code []).2 <;> simp [hz]

theorem flatMap_goodRtt_le (env : PingEnv) (seqs : List Nat) :
    (seqs.flatMap (goodRtt env)).length ≤ seqs.countP (fun s => sendOk env s) := by
  induction seqs with
  | nil => simp
  | cons s rest ih =>
    rw [List.flatMap_cons, List.length_append, List.countP_cons]
    have := goodRtt_length_le env s
    by_cases hs : sendOk env s <;> simp_all; omega

theorem replyLabels_length (env : PingEnv) (s : Nat) :
    (replyLabels env s).length = if (replyAt env s).isSome then 1 else 0 := by
  unfold replyLabels
  cases replyAt env s <;> simp

theorem flatMap_replyLabels_length (env : PingEnv) (seqs : List Nat) :
    (seqs.flatMap (replyLabels env)).length =
      seqs.countP (fun s => (replyAt env s).isSome) := by
  induction seqs with
  | nil => simp
  | cons s rest ih =>
    rw [List.flatMap_cons, List.length_append, List.countP_cons, replyLabels_length, ih]
    by_cases hs : (replyAt env s).isSome <;> simp_all; omega

theorem async_ping2_ok_noFatal (env : PingEnv) (cm : List String) (addr : String)
    (count : Nat) (interval : Rat) (res : PingResult)
    (h : async_ping2 env cm addr count interval = Except.ok res) :
    env.socketFault = false ∧ ∀ s, s < count → fatalAt env s = false := by
  unfold async_ping2 at h
  by_cases hs : env.socketFault
  · rw [if_pos (by simp [hs])] at h
    cases h
  · have hsf : env.socketFault = false := by simpa using hs
    rw [if_neg (by simp [hsf])] at h
    refine ⟨hsf, ?_⟩
    cases hp : pingLoop env interval (List.range count)
        { packets_sent := 0, rtts := [], messages := cm, trace := [] } with
    | error f => rw [hp] at h; cases h
    | ok st =>
      exact fun s hslt =>
        pingLoop_noFatal env interval _ _ st hp s (List.mem_range.mpr hslt)

theorem async_ping2_ok_inv (env : PingEnv) (cm : List String) (addr : String)
    (count : Nat) (interval : Rat) (res : PingResult)
    (h : async_ping2 env cm addr count interval = Except.ok res) :
    res = { host := { address := addr
                      packets_sent := (List.range count).countP (fun s => sendOk env s)
                      rtts := (List.range count).flatMap (goodRtt env) }
            messages := cm ++ (List.range count).flatMap (replyLabels env)
            trace := (List.range count).flatMap (attemptActions env interval) } := by
  obtain ⟨hsf, hnf⟩ := async_ping2_ok_noFatal env cm addr count interval res h
  have h2 := async_ping2_ok env cm addr count interval hsf hnf
  rw [h] at h2
  exact Except.ok.inj h2

theorem foldl_min_le (xs : List Rat) : ∀ x : Rat, xs.foldl min x ≤ x := by
  induction xs with
  | nil => intro x; exact le_refl x
  | cons b rest ih =>
    intro x
    calc rest.foldl min (min x b) ≤ min x b := ih (min x b)
      _ ≤ x := min_le_left x b

theorem le_foldl_max (xs : List Rat) : ∀ x : Rat, x ≤ xs.foldl max x := by
  induction xs with
  | nil => intro x; exact le_refl x
  | cons b rest ih =>
    intro x
    calc x ≤ max x b := le_max_left x b
      _ ≤ rest.foldl max (max x b) := ih (max x b)

theorem min_rtt_le_max_rtt (h : Host) : h.min_rtt ≤ h.max_rtt := by
  unfold Host.min_rtt Host.max_rtt
  cases h.rtts with
  | nil => exact le_refl 0
  | cons x xs =>
    calc xs.foldl min x ≤ x := foldl_min_le xs x
      _ ≤ xs.foldl max x := le_foldl_max xs x

theorem runPing_valid (env : PingEnv) (assetName : String) (cfg : Config)
    (hv : check_config (cfg.count.getD 5) (cfg.interval.getD 1) = true) :
    runPing env assetName cfg =
      Except.ok (get_state (stubItm (cfg.count.getD 5))
        (resolveAddress cfg.address assetName) (cfg.count.getD 5) ["foo", "bar"]) := by
  have hc1 : 1 ≤ cfg.count.getD 5 := by
    unfold check_config at hv
    exact (of_decide_eq_true hv).1
  simp only [runPing, hv, if_true]
  unfold finishPing
  rw [if_neg ?hfalse]
  case hfalse =>
    simp only [stubItm, not_and]
    intro hpos
    omega

/-! ## Claim theorems -/

/-- Claim C3: the classifier is deterministic and total (a pure Lean
function by construction), and for every reply it resolves exactly one
label from the static per-family lookup table, defaulting to Unassigned
when the numeric type is absent, and records that label unconditionally
before the outcome decision: the equation below holds whatever
raise_for_status raises, so error outcomes carry a label too. -/
theorem claimC3_label_total (family ty code : Nat) (msgs : List String) :
    (raise_for_status family ty code msgs).1 =
      msgs ++ [(if family = 6 then MESSAGES_V6 ty else MESSAGES_V4 ty).getD ("Unassigned")] := by
  unfold raise_for_status
  by_cases h : family = 6 <;> simp only [h, if_true, if_false, reduceIte] <;>
    split_ifs <;> simp_all

/-- Claim C2: the classifier maps (family, type) exactly as the spec table
says: IPv4 type 3 to Unreachable, 11 to TimeExceeded, 0 to Success, 5 to
Informational, everything else to ProtocolError; IPv6 type 1 to
Unreachable, 3 to TimeExceeded, 129 to Success, 137 to Informational,
everything else to ProtocolError. -/
theorem claimC2_classify_table (ty code : Nat) :
    (classify 4 3 code = Outcome.unreachable) ∧
    (classify 4 11 code = Outcome.timeExceeded) ∧
    (classify 4 0 code = Outcome.success) ∧
    (classify 4 5 code = Outcome.informational) ∧
    (ty ≠ 3 → ty ≠ 11 → ty ≠ 0 → ty ≠ 5 → classify 4 ty code = Outcome.protocolError) ∧
    (classify 6 1 code = Outcome.unreachable) ∧
    (classify 6 3 code = Outcome.timeExceeded) ∧
    (classify 6 129 code = Outcome.success) ∧
    (classify 6 137 code = Outcome.informational) ∧
    (ty ≠ 1 → ty ≠ 3 → ty ≠ 129 → ty ≠ 137 → classify 6 ty code = Outcome.protocolError) := by
  refine ⟨?_, ?_, ?_, ?_, ?_, ?_, ?_, ?_, ?_, ?_⟩ <;>
    (try intro h3 h11 h0 h5) <;>
    simp_all [classify, raise_for_status]

/-- Witness for C2 at concrete types: IPv4 type 8 (Echo) and IPv6 type 2
(Packet Too Big) are protocol errors. -/
theorem claimC2_witness :
    classify 4 8 0 = Outcome.protocolError ∧ classify 6 2 0 = Outcome.protocolError :=
  ⟨(claimC2_classify_table 8 0).2.2.2.2.1 (by decide) (by decide) (by decide) (by decide),
   (claimC2_classify_table 2 0).2.2.2.2.2.2.2.2.2 (by decide) (by decide) (by decide) (by decide)⟩

/-- Claim C4: for every completed session, 0 ≤ packetsReceived ≤
packetsSent ≤ count (the lower bound holds because the counts are
naturals), the number of recorded round-trip times equals packetsReceived,
and the number of labels recorded into catch_messages equals the number of
attempts whose send succeeded and that got any reply back (success,
informational or protocol-error alike), timeouts excluded: replyAt is some
exactly in that case. -/
theorem claimC4_statistics_invariants (env : PingEnv) (cm : List String)
    (addr : String) (count : Nat) (interval : Rat) (res : PingResult)
    (h : async_ping2 env cm addr count interval = Except.ok res) :
    res.host.packets_received ≤ res.host.packets_sent ∧
    res.host.packets_sent ≤ count ∧
    res.host.rtts.length = res.host.packets_received ∧
    res.messages.length =
      cm.length + (List.range count).countP (fun s => (replyAt env s).isSome) := by
  rw [async_ping2_ok_inv env cm addr count interval res h]
  refine ⟨?_, ?_, rfl, ?_⟩
  · exact flatMap_goodRtt_le env (List.range count)
  · calc (List.range count).countP (fun s => sendOk env s)
        ≤ (List.range count).length := List.countP_le_length _
      _ = count := List.length_range count
  · rw [List.length_append, flatMap_replyLabels_length]

/-- Witness for C4 on a concrete two-packet session with one reply and one
timeout. -/
theorem claimC4_witness :
    ({ host := { address := "1.2.3.4", packets_sent := 2, rtts := [5] }
       messages := ["Echo Reply"]
       trace := [Action.send 0, Action.recvReply 0, Action.sleep 1,
                 Action.send 1, Action.recvErr 1] } : PingResult).host.packets_received ≤ 2 ∧
    (2 : Nat) ≤ 2 ∧
    [(5 : Rat)].length = 1 ∧
    (1 : Nat) = 0 + (List.range 2).countP (fun s => (replyAt envEcho s).isSome) := by
  have h := claimC4_statistics_invariants envEcho [] ("1.2.3.4") 2 1
    { host := { address := "1.2.3.4", packets_sent := 2, rtts := [5] }
      messages := ["Echo Reply"]
      trace := [Action.send 0, Action.recvReply 0, Action.sleep 1,
                Action.send 1, Action.recvErr 1] } (by rfl)
  exact ⟨h.1, h.2.1, h.2.2.1, h.2.2.2⟩

/-- Claim C6: the loop iterates the sequence numbers 0 to count-1 in order
(the flatMap over List.range count), each attempt starts with the
inter-packet sleep exactly when its sequence number is positive and the
sleep comes before the send action (the shape of attemptActions), the
packets_sent counter ends as the number of successful sends, and a
per-packet timeout (a receive fault classified ICMPLibError) contributes no
label to catch_messages, while the session still completes normally. -/
theorem claimC6_loop_shape (env : PingEnv) (cm : List String) (addr : String)
    (count : Nat) (interval : Rat) (res : PingResult)
    (h : async_ping2 env cm addr count interval = Except.ok res) :
    res.trace = (List.range count).flatMap (attemptActions env interval) ∧
    res.host.packets_sent = (List.range count).countP (fun s => sendOk env s) ∧
    res.messages = cm ++ (List.range count).flatMap (replyLabels env) := by
  rw [async_ping2_ok_inv env cm addr count interval res h]
  exact ⟨rfl, rfl, rfl⟩

/-- Witness for C6 on the same concrete session as the C4 witness: the
trace places the single sleep after the first attempt and before the
second send, and the timeout at sequence 1 leaves messages untouched. -/
theorem claimC6_witness :
    ([Action.send 0, Action.recvReply 0, Action.sleep 1, Action.send 1,
      Action.recvErr 1] : List Action) =
        (List.range 2).flatMap (attemptActions envEcho 1) ∧
    (2 : Nat) = (List.range 2).countP (fun s => sendOk envEcho s) ∧
    (["Echo Reply"] : List String) = [] ++ (List.range 2).flatMap (replyLabels envEcho) := by
  have h := claimC6_loop_shape envEcho [] ("1.2.3.4") 2 1
    { host := { address := "1.2.3.4", packets_sent := 2, rtts := [5] }
      messages := ["Echo Reply"]
      trace := [Action.send 0, Action.recvReply 0, Action.sleep 1,
                Action.send 1, Action.recvErr 1] } (by rfl)
  exact ⟨h.1, h.2.1, h.2.2⟩

/-- Counterexample to C5 as stated: a transport-level fault during the
send of packet 0 does not abort the session and is not propagated; the
session completes and returns empty statistics, because the fault is an
ICMPLibError instance and the loop body catches every ICMPLibError. -/
theorem claimC5_counterexample :
    async_ping2 envSendSocketError [] ("1.2.3.4") 1 1 =
      Except.ok
        { host := { address := "1.2.3.4", packets_sent := 0, rtts := [] }
          messages := []
          trace := [Action.sendErr 0] } := by
  rfl

/-- Claim C5 as amended: the session never fails on protocol-level ICMP
errors, and it fails only on transport-level faults, but the per-packet
send/receive faults abort the session only when they are not classified
ICMPLibError: a fault at socket creation always propagates; any
ICMPLibError raised during send or receive (icmplib socket errors and
timeouts included) is swallowed and the loop continues; the first
non-ICMPLibError fault during send or receive aborts and propagates. -/
theorem claimC5_amended_faults :
    (∀ (env : PingEnv) (cm : List String) (addr : String) (count : Nat) (interval : Rat),
       env.socketFault = false → (∀ s, s < count → fatalAt env s = false) →
       ∃ res, async_ping2 env cm addr count interval = Except.ok res) ∧
    (∀ (env : PingEnv) (cm : List String) (addr : String) (count : Nat) (interval : Rat),
       env.socketFault = true →
       async_ping2 env cm addr count interval = Except.error Fault.socketCreation) ∧
    (∀ (env : PingEnv) (cm : List String) (addr : String) (count : Nat)
       (interval : Rat) (s : Nat),
       env.socketFault = false → s < count → fatalAt env s = true →
       (∀ t, t < s → fatalAt env t = false) →
       ∃ f : Fault, async_ping2 env cm addr count interval = Except.error f) := by
  refine ⟨?_, ?_, ?_⟩
  · intro env cm addr count interval hsock hnf
    exact ⟨_, async_ping2_ok env cm addr count interval hsock hnf⟩
  · intro env cm addr count interval hsock
    exact async_ping2_socket_fault env cm addr count interval hsock
  · intro env cm addr count interval s hsock hlt hf hpre
    exact async_ping2_error_at env cm addr count interval s hsock hlt hf hpre

/-- Witness for the amended C5: every protocol-error reply still completes
(first part, on a session whose replies are IPv4 destination-unreachable),
a socket-creation fault propagates (second part), and a non-ICMPLibError
receive fault aborts the session (third part). -/
theorem claimC5_witness :
    (∃ res, async_ping2
        { socketFault := false
          send := fun _ => SendOutcome.ok
          recv := fun _ => RecvOutcome.reply { family := 4, ty := 3, code := 1, rtt := 5 } }
        [] ("1.2.3.4") 2 1 = Except.ok res) ∧
    (async_ping2
        { socketFault := true
          send := fun _ => SendOutcome.ok
          recv := fun _ => RecvOutcome.fault true }
        [] ("1.2.3.4") 2 1 = Except.error Fault.socketCreation) ∧
    (∃ f : Fault, async_ping2 envRecvForeignError [] ("1.2.3.4") 2 1 = Except.error f) := by
  refine ⟨?_, ?_, ?_⟩
  · exact claimC5_amended_faults.1 _ [] ("1.2.3.4") 2 1 (by rfl) (by decide)
  · exact claimC5_amended_faults.2.1 _ [] ("1.2.3.4") 2 1 (by rfl)
  · exact claimC5_amended_faults.2.2 envRecvForeignError [] ("1.2.3.4") 2 1 0 (by rfl)
      (by decide) (by decide) (by omega)

/-- Claim C7: the report item built from a host has
dropped = packetsSent - packetsReceived; minTime and maxTime are both
absent exactly when packetsReceived is zero; and when present they are
min_rtt / 1000 and max_rtt / 1000 (milliseconds to seconds) with
minTime ≤ maxTime. -/
theorem claimC7_aggregation (h : Host) (name address : String) (count : Nat)
    (msgs : List String) :
    (get_item (itmOfHost h) name address count msgs).dropped =
        (h.packets_sent : Int) - (h.packets_received : Int) ∧
    (((get_item (itmOfHost h) name address count msgs).minTime = none ∧
      (get_item (itmOfHost h) name address count msgs).maxTime = none) ↔
        h.packets_received = 0) ∧
    (h.packets_received ≠ 0 →
      (get_item (itmOfHost h) name address count msgs).minTime =
          some (h.min_rtt / 1000) ∧
      (get_item (itmOfHost h) name address count msgs).maxTime =
          some (h.max_rtt / 1000) ∧
      h.min_rtt / 1000 ≤ h.max_rtt / 1000) := by
  cases hr : h.rtts with
  | nil =>
    refine ⟨rfl, ?_, ?_⟩
    · simp [get_item, itmOfHost, Host.is_alive, Host.packets_received, hr]
    · intro hnz
      exact absurd (by simp [Host.packets_received, hr]) hnz
  | cons x xs =>
    refine ⟨rfl, ?_, ?_⟩
    · simp [get_item, itmOfHost, Host.is_alive, Host.packets_received, hr]
    · intro hnz
      refine ⟨?_, ?_,
        (div_le_div_iff_of_pos_right (by norm_num)).mpr (min_rtt_le_max_rtt h)⟩
      · simp [get_item, itmOfHost, Host.is_alive, hr]
      · simp [get_item, itmOfHost, Host.is_alive, hr]

theorem claimC7_witness :
    (get_item (itmOfHost hostW) ("ping") ("1.2.3.4") 5 []).minTime =
        some (hostW.min_rtt / 1000) ∧
    (get_item (itmOfHost hostW) ("ping") ("1.2.3.4") 5 []).maxTime =
        some (hostW.max_rtt / 1000) ∧
    hostW.min_rtt / 1000 ≤ hostW.max_rtt / 1000 :=
  (claimC7_aggregation hostW ("ping") ("1.2.3.4") 5 []).2.2 (by decide)

/-- Claim C8: the tail of CheckPing.run raises NoCountException carrying
the fully built report exactly when packets were sent and none received,
and returns the report normally in every other case. -/
theorem claimC8_total_loss (data : Itm) (address : String) (count : Nat)
    (messages : List String) :
    (0 < data.packets_sent → data.packets_received = 0 →
      finishPing data address count messages =
        Except.error (CheckError.noCountException ("all packages dropped")
          (get_state data address count messages))) ∧
    (¬ (0 < data.packets_sent ∧ data.packets_received = 0) →
      finishPing data address count messages =
        Except.ok (get_state data address count messages)) := by
  unfold finishPing
  constructor
  · intro h1 h2
    rw [if_pos ⟨h1, h2⟩]
  · intro hn
    rw [if_neg hn]

theorem claimC8_witness :
    finishPing itmLoss ("1.2.3.4") 1 [] =
      Except.error (CheckError.noCountException ("all packages dropped")
        (get_state itmLoss ("1.2.3.4") 1 [])) ∧
    finishPing (stubItm 5) ("1.2.3.4") 5 ["foo", "bar"] =
      Except.ok (get_state (stubItm 5) ("1.2.3.4") 5 ["foo", "bar"]) :=
  ⟨(claimC8_total_loss itmLoss ("1.2.3.4") 1 []).1 (by decide) (by decide),
   (claimC8_total_loss (stubItm 5) ("1.2.3.4") 5 ["foo", "bar"]).2 (by decide)⟩

/-- Claim C9: CheckPing.run as written ignores the transport and the
target completely.  For every valid configuration it returns the stub
report: packets_sent and packets_received both equal count (so nothing is
dropped), messages are the hard-coded foo and bar, minTime is 4.1243 s and
maxTime 6.5888 s, whatever the transport environment, asset name or
address; returning Except.ok for every such input also shows it never
raises NoCountException. -/
theorem claimC9_stub_run (env env2 : PingEnv) (assetName assetName2 : String)
    (cfg cfg2 : Config) (hc : cfg2.count = cfg.count)
    (hi : cfg2.interval = cfg.interval)
    (hv : check_config (cfg.count.getD 5) (cfg.interval.getD 1) = true) :
    runPing env assetName cfg =
      Except.ok (get_state (stubItm (cfg.count.getD 5))
        (resolveAddress cfg.address assetName) (cfg.count.getD 5) ["foo", "bar"]) ∧
    runPing env2 assetName2 cfg2 =
      Except.ok (get_state (stubItm (cfg.count.getD 5))
        (resolveAddress cfg2.address assetName2) (cfg.count.getD 5) ["foo", "bar"]) ∧
    (stubItm (cfg.count.getD 5)).packets_sent = cfg.count.getD 5 ∧
    (stubItm (cfg.count.getD 5)).packets_received = cfg.count.getD 5 ∧
    (get_item (stubItm (cfg.count.getD 5)) ITEM_NAME
        (resolveAddress cfg.address assetName) (cfg.count.getD 5)
        ["foo", "bar"]).dropped = 0 ∧
    (get_item (stubItm (cfg.count.getD 5)) ITEM_NAME
        (resolveAddress cfg.address assetName) (cfg.count.getD 5)
        ["foo", "bar"]).messages = ["foo", "bar"] ∧
    (get_item (stubItm (cfg.count.getD 5)) ITEM_NAME
        (resolveAddress cfg.address assetName) (cfg.count.getD 5)
        ["foo", "bar"]).minTime = some 4.1243 ∧
    (get_item (stubItm (cfg.count.getD 5)) ITEM_NAME
        (resolveAddress cfg.address assetName) (cfg.count.getD 5)
        ["foo", "bar"]).maxTime = some 6.5888 := by
  refine ⟨runPing_valid env assetName cfg hv, ?_, rfl, rfl, ?_, rfl, ?_, ?_⟩
  · rw [runPing_valid env2 assetName2 cfg2 (by rw [hc, hi]; exact hv), hc]
  · simp [get_item, stubItm]
  · simp only [get_item, stubItm]
    norm_num
  · simp only [get_item, stubItm]
    norm_num

theorem claimC9_witness :
    runPing envEcho ("hostA") cfgW =
      Except.ok (get_state (stubItm 9) ("hostA") 9 ["foo", "bar"]) ∧
    (stubItm 9).packets_sent = 9 := by
  have h := claimC9_stub_run envEcho envSendSocketError ("hostA") ("hostB")
    cfgW cfgW rfl rfl (by decide)
  exact ⟨h.1, h.2.2.1⟩

/-- Claim C10: when the configuration maps address to the empty string,
which is falsy in Python without being absent, CheckPing.run still falls
back to the asset name: the report is built against assetName, and
resolveAddress sends both the empty string and the missing key to the
asset name. -/
theorem claimC10_empty_address (env : PingEnv) (assetName : String) (c i t : Nat)
    (hv : check_config c i = true) :
    runPing env assetName
        { address := some (""), count := some c, interval := some i,
          timeout := some t } =
      Except.ok (get_state (stubItm c) assetName c ["foo", "bar"]) ∧
    resolveAddress (some ("")) assetName = assetName ∧
    resolveAddress none assetName = assetName := by
  refine ⟨?_, rfl, rfl⟩
  have h := runPing_valid env assetName
    { address := some (""), count := some c, interval := some i, timeout := some t }
    (by simpa using hv)
  simpa [resolveAddress] using h

theorem claimC10_witness :
    runPing envEcho ("asset-7") cfgW =
      Except.ok (get_state (stubItm 9) ("asset-7") 9 ["foo", "bar"]) ∧
    resolveAddress (some ("")) ("asset-7") = "asset-7" ∧
    resolveAddress none ("asset-7") = "asset-7" :=
  claimC10_empty_address envEcho ("asset-7") 9 2 1 (by decide)

/-- Claim C1 concerns the intended behavior: run should invoke the real
transport-backed probe and wrap a transport fault into a CheckException
built from the stringified cause.  The code as written does neither: at the
failing input below the probe would abort with a socket-creation fault
(second equation), yet run returns the hard-coded stub report untouched
(first equation), and run is a constant function of the transport
environment (third conjunct), so no transport fault can ever surface. -/
theorem claimC1_run_never_probes :
    runPing envDown ("example.com")
        { address := none, count := none, interval := none, timeout := none } =
      Except.ok (get_state (stubItm 5) ("example.com") 5 ["foo", "bar"]) ∧
    async_ping2 envDown [] ("example.com") 5 1 = Except.error Fault.socketCreation ∧
    (∀ envA envB : PingEnv, ∀ assetName : String, ∀ cfg : Config,
      runPing envA assetName cfg = runPing envB assetName cfg) :=
  ⟨by rfl, by rfl, fun envA envB assetName cfg => rfl⟩

end PingProbe

